import Mathlib

/-!
Shallow embedding of `ares/populations/Galaxy.py` (class `GalaxyPopulation`
and the module-level function `normalize_sed`): spectral normalization,
band conversion, SFRD, emissivity, the `eta` correction factor, and the
abundance-matching (HAM) star-formation-efficiency grid.

Modelling conventions:
* Real-valued quantities are modelled as rationals (`ℚ`).
* The module is Python 2.  Comparisons of `None` with numbers follow the
  Python 2 total order (`None` is smaller than every number), captured by
  `pyGtOpt`/`pyLtOpt` below.
* External collaborators and external numerical libraries are modelled as
  function-valued fields of the population record, since the code under
  verification only composes their outputs: the cosmology and halo-mass-
  function providers (`cosm`, `halos`, `dfcolldt`, `VirialMass`), the
  source spectrum (`src.Spectrum`, `src.AveragePhotonEnergy`), the
  magnitude system (`mAB_to_L`), scipy's `quad`, `simps` and `fsolve`,
  mpmath's `gammainc`, numpy's `log10` and `10**`, and scipy's cubic
  `interp1d`.  The physical constants module (`ares.physics.Constants`)
  is likewise not part of the sources, so the constants appear as fields.
* Python exceptions (`ValueError`, `AttributeError`, the `NameError` /
  `sys.exit(1)` stop in `SFRD`, and `raise NotImplemented`) are modelled
  with `Except String`.
* Lazily cached attributes (`_conversion_factors`, `_eta`,
  `_fstar_ham_pts`) are modelled by cache fields on the record together
  with accessor functions that return the result and the updated record.
-/

namespace Ares

/-- Python's `str.lower()` as applied to the ASCII tags used here. -/
def pyLower (s : String) : String := ⟨s.data.map Char.toLower⟩

/-- `units.replace(' ', '').lower()` from `normalize_sed`: removes the
space character (only U+0020, exactly as Python's `str.replace(' ', '')`
does) and then lower-cases. -/
def normUnits (s : String) : String :=
  ⟨(s.data.filter fun c => c != Char.ofNat 32).map Char.toLower⟩

/-- Python 2 comparison `a > c` where `a` may be `None`
(`None` is below every number, so `None > c` is `False`). -/
def pyGtOpt (a : Option ℚ) (c : ℚ) : Bool :=
  match a with
  | none => false
  | some x => decide (c < x)

/-- Python 2 comparison `a < c` where `a` may be `None`
(`None` is below every number, so `None < c` is `True`). -/
def pyLtOpt (a : Option ℚ) (c : ℚ) : Bool :=
  match a with
  | none => true
  | some x => decide (x < c)

/-- Halo-mass-function tables consumed from the external halo provider
(`self.halos`): redshift grid, mass grid, log-mass grid, the per-redshift
rows of the differential number density `dndm`, and the cumulative
`MF.ngtm` array as updated to a given redshift by `MF.update(z=z)`. -/
structure Halos where
  z : List ℚ
  M : List ℚ
  logM : List ℚ
  dndm : List (List ℚ)
  MFngtm : ℚ → List ℚ

/-- A `GalaxyPopulation` instance: the parameter-file entries used by the
embedded methods, the external providers, the external numerical
routines, the physical constants, and the instance-local caches. -/
structure Pop where
  -- parameter file (`self.pf`) entries
  pop_model : String
  pop_yield : ℚ
  pop_yield_units : String
  pop_EminNorm : ℚ
  pop_EmaxNorm : ℚ
  pop_Emin : ℚ
  pop_Emax : ℚ
  pop_Emin_xray : ℚ
  pop_fesc : ℚ
  pop_fstar : ℚ
  pop_fstar_fun : Option (ℚ → ℚ → ℚ)
  pop_sfrd : Option (ℚ → ℚ)
  pop_Mmin : Option (List ℚ)
  pop_Tmin : ℚ
  pop_logM : List ℚ
  zform : ℚ
  -- constraint set (`pop_constraints`); `L_star` is derived on demand
  constraints_z : List ℚ
  constraints_alpha : List ℚ
  constraints_phi_star : List ℚ
  constraints_M_star : List ℚ
  -- cosmology provider (`self.cosm`, `self.dfcolldt`)
  rho_b_z0 : ℚ
  rho_m_z0 : ℚ
  fbaryon : ℚ
  g_per_baryon : ℚ
  dfcolldt : ℚ → ℚ
  -- halo provider
  halos : Halos
  virialMass : ℚ → ℚ → ℚ
  Macc : ℚ → ℚ → ℚ
  -- source provider (`self.src`); `srcPresent` models `src is not None`
  srcPresent : Bool
  spectrum : ℚ → ℚ
  avgPhotonEnergy : ℚ → ℚ → ℚ
  mAB_to_L : ℚ → ℚ → ℚ
  -- external numerical routines
  quadSpectrum : ℚ → ℚ → ℚ
  simps : List ℚ → List ℚ → ℚ
  fsolveHam : (ℚ → Option ℚ) → ℚ → ℚ
  gammaincUpper : ℚ → ℚ → ℚ
  cubicSpline : List ℚ → List ℚ → ℚ → ℚ
  fstarFit : ℚ → ℚ → ℚ
  pow10 : ℚ → ℚ
  log10q : ℚ → ℚ
  -- physical constants (`ares.physics.Constants`, external to src/)
  s_per_yr : ℚ
  g_per_msun : ℚ
  rhodot_cgs : ℚ
  erg_per_ev : ℚ
  cm_per_mpc : ℚ
  ln10 : ℚ
  -- instance-local caches
  conversion_factors : List ((ℚ × ℚ) × ℚ)
  etaCache : Option (List ℚ)
  fstarHamCache : Option (List (List ℚ))

/-- `self.pf['pop_model'].lower() == 'fcoll'`. -/
def is_fcoll_model (p : Pop) : Bool := pyLower p.pop_model == "fcoll"

/-- `self.pf['pop_model'].lower() == 'ham'`. -/
def is_ham_model (p : Pop) : Bool := pyLower p.pop_model == "ham"

/-- `self.pf['pop_model'].lower() == 'hod'`. -/
def is_hod_model (p : Pop) : Bool := pyLower p.pop_model == "hod"

/-- `self.pf['pop_model'].lower() == 'user'`. -/
def is_user_model (p : Pop) : Bool := pyLower p.pop_model == "user"

/-- `normalize_sed(pop)`: convert the population yield to energy per gram
of star formation.  An unrecognized unit tag raises `ValueError`. -/
def normalize_sed (p : Pop) : Except String ℚ :=
  let units := normUnits p.pop_yield_units
  if units = "erg/s/sfr" then .ok (p.pop_yield * p.s_per_yr / p.g_per_msun)
  else if units = "erg/s/hz/sfr" then .ok p.pop_yield
  else
    let erg_per_phot := p.avgPhotonEnergy p.pop_EminNorm p.pop_EmaxNorm * p.erg_per_ev
    let energy_per_sfr := p.pop_yield * erg_per_phot
    if units = "photons/baryon" then .ok (energy_per_sfr / p.g_per_baryon)
    else if units = "photons/msun" then .ok (energy_per_sfr / p.g_per_msun)
    else if units = "photons/s/sfr" then .ok (energy_per_sfr * p.s_per_yr / p.g_per_msun)
    else .error ("Unrecognized yield units: " ++ units)

/-- Association-list lookup for the `(Emin, Emax) -> factor` cache. -/
def lookupCF : List ((ℚ × ℚ) × ℚ) → ℚ × ℚ → Option ℚ
  | [], _ => none
  | kv :: rest, key => if kv.1 = key then some kv.2 else lookupCF rest key

/-- `GalaxyPopulation._convert_band(Emin, Emax)`.  Returns the factor and
the population with its `_conversion_factors` cache possibly extended.
The out-of-band `print` warnings are informational only and are not
modelled. -/
def convert_band (p : Pop) (EminO EmaxO : Option ℚ) : ℚ × Pop :=
  let db := (EminO.isSome && p.srcPresent) || (EmaxO.isSome && p.srcPresent)
  let emin := match EminO with
    | some v => if p.srcPresent then v else p.pop_Emin
    | none => p.pop_Emin
  let emax := match EmaxO with
    | some v => if p.srcPresent then v else p.pop_Emax
    | none => p.pop_Emax
  if db then
    match lookupCF p.conversion_factors (emin, emax) with
    | some f => (f, p)
    | none =>
      let factor := p.quadSpectrum emin emax
      (factor, { p with conversion_factors :=
        ((emin, emax), factor) :: p.conversion_factors })
  else (1, p)

/-- `GalaxyPopulation.Mmin`: fixed list if `pop_Mmin` is given, otherwise
the virial mass at `pop_Tmin` evaluated on the halo redshift grid. -/
def Mmin (p : Pop) : List ℚ :=
  match p.pop_Mmin with
  | some l => l
  | none => p.halos.z.map fun z => p.virialMass p.pop_Tmin z

/-- `GalaxyPopulation._Marr = 10**self.pf['pop_logM']`. -/
def Marr (p : Pop) : List ℚ := p.pop_logM.map p.pow10

/-- `GalaxyPopulation.constraints['L_star']`: one luminosity per
constraint redshift, converted from the characteristic magnitude by the
magnitude system. -/
def constraintsLstar (p : Pop) : List ℚ :=
  (p.constraints_z.zip p.constraints_M_star).map fun zM => p.mAB_to_L zM.2 zM.1

/-- First index of the minimal `|target - v|` (tail-recursive helper). -/
def argminAbsAux (t : ℚ) : List ℚ → ℕ → ℕ → ℚ → ℕ
  | [], _, best, _ => best
  | v :: rest, idx, best, bestval =>
    if abs (t - v) < bestval then argminAbsAux t rest (idx + 1) idx (abs (t - v))
    else argminAbsAux t rest (idx + 1) best bestval

/-- `np.argmin(np.abs(t - l))`: first index minimizing the distance. -/
def argminAbs (t : ℚ) : List ℚ → ℕ
  | [] => 0
  | v :: rest => argminAbsAux t rest 1 0 (abs (t - v))

/-- `np.interp(x, xp, fp)` for an increasing `xp`: clamped piecewise
linear interpolation. -/
def npInterp (x : ℚ) : List ℚ → List ℚ → ℚ
  | [], _ => 0
  | [_], fp => fp.getD 0 0
  | x0 :: x1 :: rest, fp =>
    if x ≤ x0 then fp.getD 0 0
    else if x ≤ x1 then
      fp.getD 0 0 + (fp.getD 1 0 - fp.getD 0 0) * (x - x0) / (x1 - x0)
    else npInterp x (x1 :: rest) (fp.drop 1)

/-- The body of the `GalaxyPopulation.eta` property: for each halo
redshift, the ratio `rhs / lhs` between the collapse-rate density and the
accretion-weighted halo-number integral above `Mmin`, the latter a
Simpson integral over log-mass plus one extra trapezoid bridging `Mmin`.
(`j1 -= 1` at `j1 = 0` would wrap around in Python; the grids used in
practice keep `j1 ≥ 1` and the wrap is not modelled.) -/
def computeEta (p : Pop) : List ℚ :=
  (List.range p.halos.z.length).map fun i =>
    let z := p.halos.z.getD i 0
    let mmin := (Mmin p).getD i 0
    let logMmin := p.log10q mmin
    let rhs := p.rho_m_z0 * p.dfcolldt z * (p.s_per_yr / p.g_per_msun) * p.cm_per_mpc ^ 3
    let maccArr := p.halos.M.map (p.Macc z)
    let dndmRow := p.halos.dndm.getD i []
    let j1p := argminAbs mmin p.halos.M
    let j1 := if maccArr.getD j1p 0 > p.halos.M.getD j1p 0 then j1p - 1 else j1p
    let j2 := j1 + 1
    let lhs := p.simps (List.zipWith (· * ·) (maccArr.drop j2) (dndmRow.drop j2))
      (p.halos.logM.drop j2) * p.ln10
    let v1 := maccArr.getD j1 0 * dndmRow.getD j1 0
    let v2 := maccArr.getD j2 0 * dndmRow.getD j2 0
    let macc1 := npInterp mmin [p.halos.M.getD j1 0, p.halos.M.getD j2 0] [v1, v2]
    let macc2 := maccArr.getD j2 0
    let extra := 1 / 2 * (p.halos.logM.getD j2 0 - logMmin) * (macc1 + macc2) * p.ln10
    rhs / (lhs + extra)

/-- The value guard of the `eta` property: outside HAM mode the access
raises `AttributeError('eta is a HAM thing!')`. -/
def etaExcept (p : Pop) : Except String (List ℚ) :=
  if is_ham_model p then .ok (computeEta p) else .error "eta is a HAM thing!"

/-- The `eta` property access with its `_eta` cache: returns the value
(or the `AttributeError`) together with the resulting instance state. -/
def etaAccess (p : Pop) : Except String (List ℚ) × Pop :=
  if is_ham_model p then
    match p.etaCache with
    | some e => (.ok e, p)
    | none =>
      let e := computeEta p
      (.ok e, { p with etaCache := some e })
  else (.error "eta is a HAM thing!", p)

/-- `GalaxyPopulation.fstar(z, M)`: a user-supplied function, a constant
outside HAM mode, or the fitted polynomial surface in HAM mode (the
`curve_fit` + `10**logf` evaluation is the external `fstarFit`). -/
def fstar (p : Pop) (z M : ℚ) : ℚ :=
  match p.pop_fstar_fun with
  | some f => f z M
  | none => if is_ham_model p then p.fstarFit z M else p.pop_fstar

/-- One row of `GalaxyPopulation._sfr_ham`:
`fbaryon * Macc(z, M) * fstar(z, M)` on the halo mass grid. -/
def sfrHamRow (p : Pop) (z : ℚ) : List ℚ :=
  p.halos.M.map fun M => p.fbaryon * p.Macc z M * fstar p z M

/-- The `Mmin` array recomputed inside `_sfrd_ham_tab` (virial masses on
the halo redshift grid when `pop_Mmin` is absent, else `pop_Mmin`). -/
def MminOfZ (p : Pop) : List ℚ :=
  match p.pop_Mmin with
  | none => p.halos.z.map fun z => p.virialMass p.pop_Tmin z
  | some l => l

/-- `GalaxyPopulation._sfrd_ham_tab`: the HAM SFRD table, one Simpson
integral over log-mass above `Mmin` per halo redshift. -/
def sfrdHamTab (p : Pop) : List ℚ :=
  (List.range p.halos.z.length).map fun i =>
    let z := p.halos.z.getD i 0
    let integrand := List.zipWith (· * ·) (sfrHamRow p z) (p.halos.dndm.getD i [])
    let k := argminAbs ((MminOfZ p).getD i 0) p.halos.M
    p.simps (integrand.drop k) (p.halos.logM.drop k) * p.ln10

/-- `GalaxyPopulation._sfrd_ham`: the cubic spline through the table. -/
def sfrdHamSpline (p : Pop) (z : ℚ) : ℚ :=
  p.cubicSpline p.halos.z (sfrdHamTab p) z

/-- `GalaxyPopulation.SFRD(z)`.  `0.0` beyond the formation redshift; a
user-supplied function (divided by `rhodot_cgs`) when present; the
`fcoll` formula with a hard stop on negative values (`negative_SFRD` +
`sys.exit(1)` in the source — an uncaught exit, modelled as an error);
the HAM spline; otherwise `NotImplemented`. -/
def SFRD (p : Pop) (z : ℚ) : Except String ℚ :=
  if p.zform < z then .ok 0
  else
    match p.pop_sfrd with
    | some f => .ok (f z / p.rhodot_cgs)
    | none =>
      if is_fcoll_model p then
        let sfrd := p.pop_fstar * p.rho_b_z0 * p.dfcolldt z
        if sfrd < 0 then .error "negative SFRD"
        else .ok sfrd
      else if is_ham_model p then
        .ok (sfrdHamSpline p z * p.g_per_msun / p.s_per_yr)
      else .error "dunno how to model the SFRD!"

/-- `GalaxyPopulation.Emissivity(z, E, Emin, Emax)`.  Only populations
that are `fcoll`-model or carry an explicit `pop_sfrd` are supported
(`raise NotImplemented('help')` otherwise).  The escape-fraction factor
tests the *raw arguments* `Emax > 13.6 and Emin < pop_Emin_xray` with
Python 2 `None` ordering.  Returns the value and the instance with its
band-conversion cache possibly extended. -/
def Emissivity (p : Pop) (z : ℚ) (E EminO EmaxO : Option ℚ) :
    Except String (ℚ × Pop) :=
  if is_fcoll_model p || p.pop_sfrd.isSome then
    match SFRD p z with
    | .error e => .error e
    | .ok s =>
      match normalize_sed p with
      | .error e => .error e
      | .ok y =>
        let rhoL := s * y
        let fp := convert_band p EminO EmaxO
        let rhoL := rhoL * fp.1
        let rhoL := if pyGtOpt EmaxO (13.6 : ℚ) && pyLtOpt EminO p.pop_Emin_xray
                    then rhoL * p.pop_fesc else rhoL
        match E with
        | some e => .ok (rhoL * p.spectrum e, fp.2)
        | none => .ok (rhoL, fp.2)
  else .error "help"

/-- Exception-propagating map, mirroring a Python `for` loop in which
each iteration may raise. -/
def mapExcept {α β : Type} (l : List α) (f : α → Except String β) :
    Except String (List β) :=
  match l with
  | [] => .ok []
  | a :: rest =>
    match f a with
    | .error e => .error e
    | .ok b =>
      match mapExcept rest f with
      | .error e => .error e
      | .ok bs => .ok (b :: bs)

/-- One cell of the `_fstar_ham` grid at constraint index `i` and grid
mass `M`: masses below `Mmin[i]` are skipped (left at `0`); otherwise the
abundance-matching objective is handed to the external root finder
`fsolve(to_min, 0.001, ...)`.  The objective returns `none` for
`np.inf` when the trial luminosity is negative.  Reading the `eta`
property raises outside HAM mode. -/
def hamCell (p : Pop) (kappaUV : ℚ) (i : ℕ) (M : ℚ) : Except String ℚ :=
  if M < (Mmin p).getD i 0 then .ok 0
  else
    let z := p.constraints_z.getD i 0
    let alpha := p.constraints_alpha.getD i 0
    let Lstar := (constraintsLstar p).getD i 0
    let phistar := p.constraints_phi_star.getD i 0
    let macc := p.Macc z M
    match etaExcept p with
    | .error e => .error e
    | .ok etaArr =>
      let etaI := etaArr.getD i 0
      let intnMh := npInterp M p.halos.M (p.halos.MFngtm z)
      let toMin : ℚ → Option ℚ := fun f0 =>
        let Lmin := f0 * macc * etaI / kappaUV
        if Lmin < 0 then none
        else some (abs (p.gammaincUpper (alpha + 1) (Lmin / Lstar) * phistar - intnMh))
      .ok (p.fsolveHam toMin (1 / 1000))

/-- The outer loop of `_fstar_ham`: rows `i, i+1, ...` for `n` constraint
redshifts. -/
def hamRows (p : Pop) (kappaUV : ℚ) (ms : List ℚ) (i n : ℕ) :
    Except String (List (List ℚ)) :=
  match n with
  | 0 => .ok []
  | n' + 1 =>
    match mapExcept ms (hamCell p kappaUV i) with
    | .error e => .error e
    | .ok row =>
      match hamRows p kappaUV ms (i + 1) n' with
      | .error e => .error e
      | .ok rest => .ok (row :: rest)

/-- Construction of the `_fstar_ham_pts` grid (the one-time body of the
`_fstar_ham` property): `kappa_UV = 1 / yield_per_sfr`, then one row per
constraint redshift over the `10**pop_logM` mass grid. -/
def fstarHamGridE (p : Pop) : Except String (List (List ℚ)) :=
  match normalize_sed p with
  | .error e => .error e
  | .ok y => hamRows p (1 / y) (Marr p) 0 p.constraints_z.length

/-- The `_fstar_ham` property access with its cache: the grid is built at
most once; afterwards the cached grid is returned unchanged. -/
def fstarHamAccess (p : Pop) : Except String (List (List ℚ)) × Pop :=
  match p.fstarHamCache with
  | some g => (.ok g, p)
  | none =>
    match fstarHamGridE p with
    | .ok g => (.ok g, { p with fstarHamCache := some g })
    | .error e => (.error e, p)

/-- The normalization described by the specification's words (spec-side
definition, used only to compare with the source behaviour): strip ALL
whitespace and lower-case. -/
def stripWsLower (s : String) : String :=
  ⟨(s.data.filter fun c => !c.isWhitespace).map Char.toLower⟩

/-- Empty halo tables, for concrete instances whose claims do not touch
the halo grid. -/
def baseHalos : Halos :=
  { z := [], M := [], logM := [], dndm := [], MFngtm := fun _ => [] }

/-- A concrete `fcoll`-model population used to instantiate theorems on
explicit inputs. -/
def basePop : Pop where
  pop_model := "fcoll"
  pop_yield := 1
  pop_yield_units := "erg/s/hz/sfr"
  pop_EminNorm := 1
  pop_EmaxNorm := 10
  pop_Emin := 10
  pop_Emax := 8000
  pop_Emin_xray := 200
  pop_fesc := 1 / 2
  pop_fstar := 1 / 10
  pop_fstar_fun := none
  pop_sfrd := none
  pop_Mmin := some [5]
  pop_Tmin := 10000
  pop_logM := [0]
  zform := 50
  constraints_z := [6]
  constraints_alpha := [-2]
  constraints_phi_star := [1]
  constraints_M_star := [-21]
  rho_b_z0 := 2
  rho_m_z0 := 10
  fbaryon := 1 / 6
  g_per_baryon := 1
  dfcolldt := fun _ => 3
  halos := baseHalos
  virialMass := fun _ _ => 1
  Macc := fun _ _ => 1
  srcPresent := true
  spectrum := fun _ => 1
  avgPhotonEnergy := fun _ _ => 1
  mAB_to_L := fun _ _ => 1
  quadSpectrum := fun _ _ => 1 / 2
  simps := fun _ _ => 1
  fsolveHam := fun _ x => x
  gammaincUpper := fun _ _ => 1
  cubicSpline := fun _ _ _ => 0
  fstarFit := fun _ _ => 1 / 10
  pow10 := fun _ => 1
  log10q := fun _ => 0
  s_per_yr := 100
  g_per_msun := 1000
  rhodot_cgs := 1
  erg_per_ev := 1
  cm_per_mpc := 1
  ln10 := 2
  conversion_factors := []
  etaCache := none
  fstarHamCache := none

/-- An `fcoll`-model population that carries an explicit (negative)
user-supplied SFRD function while its `fcoll` formula is also negative. -/
def sfrdUserPop : Pop :=
  { basePop with pop_sfrd := some fun _ => -1, dfcolldt := fun _ => -1 }

/-- An `fcoll`-model population whose `fcoll` formula is negative. -/
def negPop : Pop :=
  { basePop with dfcolldt := fun _ => -1 }

/-- Claim C5: `SFRD` returns exactly `0.0` for every redshift strictly beyond
the formation redshift, regardless of the model kind and of any
user-supplied SFRD function: the `z > zform` early return precedes every
other branch. -/
theorem SFRD_zero_beyond_zform (p : Pop) (z : ℚ) (h : p.zform < z) :
    SFRD p z = .ok 0 := by
  simp [SFRD, h]

/-- Witness for `SFRD_zero_beyond_zform` at a concrete population. -/
theorem SFRD_zero_beyond_zform_witness :
    basePop.zform < 100 ∧ SFRD basePop 100 = .ok 0 :=
  ⟨by norm_num [basePop],
   SFRD_zero_beyond_zform basePop 100 (by norm_num [basePop])⟩

/-- Claim C6: End-to-end `fcoll` scenario: with no user-supplied SFRD and
fixed `pop_fstar = 0.1`, `SFRD(10)` (below the formation redshift, and
with a non-negative rate) equals `0.1 * rho_b_z0 * dfcolldt(10)`, and
`SFRD(100)` (above the formation redshift) equals `0.0`. -/
theorem SFRD_fcoll_scenario (p : Pop)
    (hf : is_fcoll_model p = true) (hu : p.pop_sfrd = none)
    (hfs : p.pop_fstar = 1 / 10)
    (hz : (10 : ℚ) ≤ p.zform) (hz2 : p.zform < 100)
    (hpos : 0 ≤ 1 / 10 * p.rho_b_z0 * p.dfcolldt 10) :
    SFRD p 10 = .ok (1 / 10 * p.rho_b_z0 * p.dfcolldt 10) ∧
    SFRD p 100 = .ok 0 := by
  refine ⟨?_, by simp [SFRD, hz2]⟩
  rw [SFRD, if_neg (not_lt.mpr hz), hu]
  simp only [hf, if_true, hfs]
  rw [if_neg (not_lt.mpr hpos)]

/-- Witness for `SFRD_fcoll_scenario` at a concrete population. -/
theorem SFRD_fcoll_scenario_witness :
    SFRD basePop 10 = .ok (1 / 10 * basePop.rho_b_z0 * basePop.dfcolldt 10) ∧
    SFRD basePop 100 = .ok 0 :=
  SFRD_fcoll_scenario basePop (by decide) rfl (by norm_num [basePop])
    (by norm_num [basePop]) (by norm_num [basePop]) (by norm_num [basePop])

/-- Claim C4, amended: For an `fcoll`-model population *with no user-supplied
SFRD function*, every redshift at or below the formation redshift where
the `fcoll` rate `pop_fstar * rho_b_z0 * dfcolldt(z)` is negative makes
`SFRD` halt (raise) instead of returning the rate, and `SFRD` never
returns a negative value. -/
theorem SFRD_fcoll_negative_halts (p : Pop)
    (hf : is_fcoll_model p = true) (hu : p.pop_sfrd = none) :
    (∀ z : ℚ, z ≤ p.zform → p.pop_fstar * p.rho_b_z0 * p.dfcolldt z < 0 →
      SFRD p z = .error "negative SFRD") ∧
    (∀ z v : ℚ, SFRD p z = .ok v → 0 ≤ v) := by
  constructor
  · intro z hz hneg
    rw [SFRD, if_neg (not_lt.mpr hz), hu]
    simp only [hf, if_true]
    rw [if_pos hneg]
  · intro z v h
    rw [SFRD] at h
    by_cases hz : p.zform < z
    · rw [if_pos hz] at h
      injection h with h2
      rw [← h2]
    · rw [if_neg hz, hu] at h
      simp only [hf, if_true] at h
      by_cases hneg : p.pop_fstar * p.rho_b_z0 * p.dfcolldt z < 0
      · rw [if_pos hneg] at h
        cases h
      · rw [if_neg hneg] at h
        injection h with h2
        rw [← h2]
        exact not_lt.mp hneg

/-- Witness for `SFRD_fcoll_negative_halts` at a concrete population
whose `fcoll` rate is negative at `z = 10`. -/
theorem SFRD_fcoll_negative_halts_witness :
    SFRD negPop 10 = .error "negative SFRD" :=
  (SFRD_fcoll_negative_halts negPop (by decide) rfl).1 10
    (by norm_num [negPop, basePop]) (by norm_num [negPop, basePop])

/-- Counterexample to claim C4 as stated: an `fcoll`-model population
whose `fcoll` rate is negative at `z = 10 ≤ zform`, yet `SFRD(10)` does
not halt — a user-supplied SFRD function short-circuits the `fcoll`
branch and its (negative) value is returned to the caller. -/
theorem SFRD_fcoll_negative_no_halt_cex :
    is_fcoll_model sfrdUserPop = true ∧
    (10 : ℚ) ≤ sfrdUserPop.zform ∧
    sfrdUserPop.pop_fstar * sfrdUserPop.rho_b_z0 * sfrdUserPop.dfcolldt 10 < 0 ∧
    SFRD sfrdUserPop 10 = .ok (-1) := by
  refine ⟨by decide, by norm_num [sfrdUserPop, basePop],
    by norm_num [sfrdUserPop, basePop], ?_⟩
  have h10 : ¬ sfrdUserPop.zform < (10 : ℚ) := by norm_num [sfrdUserPop, basePop]
  rw [SFRD, if_neg h10]
  norm_num [sfrdUserPop, basePop]

/-- Claim C8: Accessing the `eta` property on a population whose model kind is
not `'ham'` raises `AttributeError('eta is a HAM thing!')` and leaves the
instance state unchanged (the guard precedes any cache write). -/
theorem eta_requires_ham (p : Pop) (h : is_ham_model p = false) :
    etaAccess p = (.error "eta is a HAM thing!", p) := by
  simp [etaAccess, h]

/-- Witness for `eta_requires_ham` at a concrete `fcoll` population. -/
theorem eta_requires_ham_witness :
    etaAccess basePop = (.error "eta is a HAM thing!", basePop) :=
  eta_requires_ham basePop (by decide)

/-- Claim C3, amended: The band-conversion factor is exactly `1.0` when both
band bounds are omitted (`None`), so that the native band is used by
default; when the native bounds are passed *explicitly* (with a source
present and an empty cache) the returned factor is the spectral integral
over `(pop_Emin, pop_Emax)`, which is not constrained to be `1.0`. -/
theorem convert_band_default_band (p : Pop)
    (hsrc : p.srcPresent = true) (hcache : p.conversion_factors = []) :
    (convert_band p none none).1 = 1 ∧
    (convert_band p (some p.pop_Emin) (some p.pop_Emax)).1 =
      p.quadSpectrum p.pop_Emin p.pop_Emax := by
  constructor
  · simp [convert_band]
  · simp [convert_band, hsrc, hcache, lookupCF]

/-- Witness for `convert_band_default_band` at a concrete population. -/
theorem convert_band_default_band_witness :
    (convert_band basePop none none).1 = 1 ∧
    (convert_band basePop (some basePop.pop_Emin) (some basePop.pop_Emax)).1 =
      basePop.quadSpectrum basePop.pop_Emin basePop.pop_Emax :=
  convert_band_default_band basePop rfl rfl

/-- Counterexample to claim C3 as stated: calling `_convert_band`
with `Emin == pop_Emin` and `Emax == pop_Emax` passed explicitly does
*not* return `1.0` — it returns the `quad` integral of the spectrum over
the native band (here `1/2`), because any non-`None` bound sets
`different_band` regardless of the values. -/
theorem convert_band_native_not_one :
    (convert_band basePop (some basePop.pop_Emin) (some basePop.pop_Emax)).1 ≠ 1 := by
  norm_num [convert_band, lookupCF, basePop]

/-- Claim C7, amended: `normalize_sed` first normalizes the unit tag by
removing space characters and lower-casing; the result raises the
unrecognized-unit `ValueError` exactly for normalized tags outside the
five supported ones, and for `erg/s/sfr` it returns exactly
`pop_yield * s_per_yr / g_per_msun`. -/
theorem normalize_sed_units (p : Pop) :
    (normUnits p.pop_yield_units ∉
        (["erg/s/sfr", "erg/s/hz/sfr", "photons/baryon", "photons/msun",
          "photons/s/sfr"] : List String) →
      normalize_sed p =
        .error ("Unrecognized yield units: " ++ normUnits p.pop_yield_units)) ∧
    (normUnits p.pop_yield_units ∈
        (["erg/s/sfr", "erg/s/hz/sfr", "photons/baryon", "photons/msun",
          "photons/s/sfr"] : List String) →
      ∃ v, normalize_sed p = .ok v) ∧
    (normUnits p.pop_yield_units = "erg/s/sfr" →
      normalize_sed p = .ok (p.pop_yield * p.s_per_yr / p.g_per_msun)) := by
  refine ⟨?_, ?_, ?_⟩
  · intro h
    simp only [List.mem_cons, List.not_mem_nil, or_false, not_or] at h
    obtain ⟨h1, h2, h3, h4, h5⟩ := h
    rw [normalize_sed]
    rw [if_neg h1, if_neg h2, if_neg h3, if_neg h4, if_neg h5]
  · intro h
    simp only [List.mem_cons, List.not_mem_nil, or_false] at h
    rw [normalize_sed]
    rcases h with h | h | h | h | h <;> rw [h]
    · exact ⟨_, by rw [if_pos rfl]⟩
    · exact ⟨_, by rw [if_neg (by decide), if_pos rfl]⟩
    · exact ⟨_, by rw [if_neg (by decide), if_neg (by decide), if_pos rfl]⟩
    · exact ⟨_, by rw [if_neg (by decide), if_neg (by decide), if_neg (by decide),
        if_pos rfl]⟩
    · exact ⟨_, by rw [if_neg (by decide), if_neg (by decide), if_neg (by decide),
        if_neg (by decide), if_pos rfl]⟩
  · intro h
    rw [normalize_sed, h]
    rw [if_pos rfl]

/-- Witness for `normalize_sed_units`: a tag with spaces and capitals
normalizes to `erg/s/sfr` and yields exactly
`pop_yield * s_per_yr / g_per_msun`. -/
theorem normalize_sed_units_witness :
    normalize_sed { basePop with pop_yield_units := "ERG / S / SFR" } =
      .ok ({ basePop with pop_yield_units := "ERG / S / SFR" }.pop_yield *
        { basePop with pop_yield_units := "ERG / S / SFR" }.s_per_yr /
        { basePop with pop_yield_units := "ERG / S / SFR" }.g_per_msun) :=
  (normalize_sed_units { basePop with pop_yield_units := "ERG / S / SFR" }).2.2
    (by decide)

/-- Counterexample to claim C7 as stated: the tag `"erg/s/sfr\t"`
normalizes, under the claim's whitespace-stripping-and-lower-casing, to
the supported tag `erg/s/sfr`, yet `normalize_sed` raises the
unrecognized-unit error, because the source removes only the space
character (`replace(' ', '')`), not all whitespace. -/
theorem normalize_sed_whitespace_cex :
    stripWsLower "erg/s/sfr\t" = "erg/s/sfr" ∧
    normalize_sed { basePop with pop_yield_units := "erg/s/sfr\t" } =
      .error "Unrecognized yield units: erg/s/sfr\t" := by
  constructor
  · decide
  · rw [normalize_sed]
    rw [if_neg (by decide), if_neg (by decide), if_neg (by decide),
      if_neg (by decide), if_neg (by decide)]
    exact congrArg Except.error (by decide)

/-- A HAM-model population (same data as `basePop`, model tag `'ham'`). -/
def hamPop : Pop := { basePop with pop_model := "ham" }

/-- Helper: evaluation of the `fcoll` branch of `SFRD`. -/
theorem SFRD_fcoll_eval (p : Pop) (z : ℚ) (hz : ¬ p.zform < z)
    (hu : p.pop_sfrd = none) (hf : is_fcoll_model p = true)
    (hpos : ¬ p.pop_fstar * p.rho_b_z0 * p.dfcolldt z < 0) :
    SFRD p z = .ok (p.pop_fstar * p.rho_b_z0 * p.dfcolldt z) := by
  rw [SFRD, if_neg hz, hu]
  simp only [hf, if_true]
  rw [if_neg hpos]

/-- Helper: `basePop` uses the pass-through unit tag, so its yield per
star formation is its raw `pop_yield`. -/
theorem normalize_sed_base_ok : normalize_sed basePop = .ok 1 := by
  simp only [normalize_sed]
  rw [if_neg (by decide), if_pos (by decide)]
  rfl

/-- Helper: the `fcoll` SFRD of `basePop` at `z = 5`. -/
theorem SFRD_base_five : SFRD basePop 5 = .ok (3 / 5) := by
  have h := SFRD_fcoll_eval basePop 5 (by norm_num [basePop]) rfl (by decide)
    (by norm_num [basePop])
  rw [h]
  norm_num [basePop]

/-- Claim C2, amended: For populations that reach the supported branch of
`Emissivity` — `fcoll`-model, or an explicit `pop_sfrd` — the emissivity
with a numeric requested band is `SFRD(z) * yield_per_sfr` times the
band-conversion factor, times `pop_fesc` exactly when `Emax > 13.6` and
`Emin < pop_Emin_xray`. -/
theorem Emissivity_band_formula (p : Pop) (z a b s y : ℚ)
    (hm : is_fcoll_model p = true ∨ p.pop_sfrd.isSome = true)
    (hs : SFRD p z = .ok s) (hy : normalize_sed p = .ok y) :
    Emissivity p z none (some a) (some b) =
      .ok (s * y * (convert_band p (some a) (some b)).1 *
        (if (13.6 : ℚ) < b ∧ a < p.pop_Emin_xray then p.pop_fesc else 1),
        (convert_band p (some a) (some b)).2) := by
  rcases hm with h | h <;>
    (by_cases hb : (13.6 : ℚ) < b <;> by_cases ha : a < p.pop_Emin_xray <;>
      simp [Emissivity, h, hs, hy, pyGtOpt, pyLtOpt, hb, ha])

/-- Witness for `Emissivity_band_formula` at a concrete population whose
requested band straddles the Lyman limit and reaches into X-rays. -/
theorem Emissivity_band_formula_witness :
    Emissivity basePop 5 none (some 14) (some 100) =
      .ok (3 / 5 * 1 * (convert_band basePop (some 14) (some 100)).1 *
        (if (13.6 : ℚ) < 100 ∧ (14 : ℚ) < basePop.pop_Emin_xray
         then basePop.pop_fesc else 1),
        (convert_band basePop (some 14) (some 100)).2) :=
  Emissivity_band_formula basePop 5 14 100 (3 / 5) 1 (Or.inl (by decide))
    SFRD_base_five normalize_sed_base_ok

/-- Counterexample to claim C2 as stated: a HAM-model population has
a defined `SFRD` (the HAM spline branch), yet `Emissivity` raises
`NotImplemented('help')` instead of returning
`SFRD(z) * yield_per_sfr * factor`, because its guard admits only
`fcoll`-model populations and populations with an explicit `pop_sfrd`. -/
theorem Emissivity_ham_defined_sfrd_raises :
    (∃ v, SFRD hamPop 8 = .ok v) ∧
    Emissivity hamPop 8 none (some 14) (some 100) = .error "help" := by
  constructor
  · refine ⟨sfrdHamSpline hamPop 8 * hamPop.g_per_msun / hamPop.s_per_yr, ?_⟩
    have h8 : ¬ hamPop.zform < (8 : ℚ) := by norm_num [hamPop, basePop]
    rw [SFRD, if_neg h8]
    simp [hamPop, basePop, is_fcoll_model, is_ham_model, pyLower]
  · rw [Emissivity, if_neg (by decide)]

/-- Claim C10: For an `fcoll`-model population, `Emissivity(z)` with `E`,
`Emin` and `Emax` all omitted returns exactly `SFRD(z) * yield_per_sfr`:
the band factor is `1.0` and no `pop_fesc` factor is applied — even when
the native band straddles the Lyman limit and reaches into X-rays —
because the `Emax > 13.6` test sees `None`, which is below every number
in Python 2. -/
theorem Emissivity_default_band_no_fesc (p : Pop) (z s y : ℚ)
    (hf : is_fcoll_model p = true)
    (_hstraddle : p.pop_Emin < p.pop_Emin_xray ∧ (13.6 : ℚ) < p.pop_Emax)
    (hs : SFRD p z = .ok s) (hy : normalize_sed p = .ok y) :
    Emissivity p z none none none = .ok (s * y, p) := by
  simp [Emissivity, hf, hs, hy, pyGtOpt, convert_band]

/-- Witness for `Emissivity_default_band_no_fesc` at a concrete
population whose native band does straddle the Lyman limit. -/
theorem Emissivity_default_band_no_fesc_witness :
    Emissivity basePop 5 none none none = .ok (3 / 5 * 1, basePop) :=
  Emissivity_default_band_no_fesc basePop 5 (3 / 5) 1 (by decide)
    ⟨by norm_num [basePop], by norm_num [basePop]⟩ SFRD_base_five
    normalize_sed_base_ok

/-- If a `mapExcept` run succeeds, each output entry is the successful
image of the corresponding input entry. -/
theorem mapExcept_ok_getD {α β : Type} (f : α → Except String β) :
    ∀ (l : List α) (ys : List β), mapExcept l f = .ok ys →
      ∀ j : ℕ, j < l.length → ∀ (d : α) (d' : β),
        f (l.getD j d) = .ok (ys.getD j d') := by
  intro l
  induction l with
  | nil =>
    intro ys _ j hj
    exact absurd hj (Nat.not_lt_zero j)
  | cons a t ih =>
    intro ys h j hj d d'
    rw [mapExcept] at h
    cases hfa : f a with
    | error e => simp only [hfa] at h; cases h
    | ok b =>
      simp only [hfa] at h
      cases hrest : mapExcept t f with
      | error e => simp only [hrest] at h; cases h
      | ok bs =>
        simp only [hrest] at h
        injection h with h2
        subst h2
        cases j with
        | zero => simpa using hfa
        | succ j2 =>
          simpa using ih bs hrest j2 (Nat.lt_of_succ_lt_succ hj) d d'

/-- If the row loop of the HAM grid succeeds, row `k` is the successful
`mapExcept` over the mass grid at constraint index `i + k`. -/
theorem hamRows_ok_getD (p : Pop) (k0 : ℚ) (ms : List ℚ) :
    ∀ (n i : ℕ) (rows : List (List ℚ)),
      hamRows p k0 ms i n = .ok rows →
      ∀ k : ℕ, k < n →
        mapExcept ms (hamCell p k0 (i + k)) = .ok (rows.getD k []) := by
  intro n
  induction n with
  | zero =>
    intro i rows _ k hk
    exact absurd hk (Nat.not_lt_zero k)
  | succ m ih =>
    intro i rows h k hk
    rw [hamRows] at h
    cases hrow : mapExcept ms (hamCell p k0 i) with
    | error e => simp only [hrow] at h; cases h
    | ok row =>
      simp only [hrow] at h
      cases hrest : hamRows p k0 ms (i + 1) m with
      | error e => simp only [hrest] at h; cases h
      | ok rest =>
        simp only [hrest] at h
        injection h with h2
        subst h2
        cases k with
        | zero => simpa using hrow
        | succ k2 =>
          have harith : i + (k2 + 1) = i + 1 + k2 := by omega
          rw [harith]
          simpa using ih (i + 1) rest hrest k2 (Nat.lt_of_succ_lt_succ hk)

/-- Claim C9: In the constructed HAM efficiency grid, every cell whose grid
mass lies below `Mmin` at its constraint redshift is exactly `0` (such
cells are skipped by the solver loop and keep their `np.zeros` value),
and the cached grid is immutable afterward: re-reading the property is
idempotent on both the value and the instance state. -/
theorem fstar_ham_below_Mmin_zero (p : Pop) (g : List (List ℚ)) (i j : ℕ)
    (hg : fstarHamGridE p = .ok g) (hi : i < p.constraints_z.length)
    (hj : j < (Marr p).length) (hM : (Marr p).getD j 0 < (Mmin p).getD i 0) :
    (g.getD i []).getD j 0 = 0 ∧
    fstarHamAccess (fstarHamAccess p).2 = fstarHamAccess p := by
  constructor
  · rw [fstarHamGridE] at hg
    cases hy : normalize_sed p with
    | error e => simp only [hy] at hg; cases hg
    | ok y =>
      simp only [hy] at hg
      have hrow := hamRows_ok_getD p (1 / y) (Marr p) p.constraints_z.length 0 g hg i hi
      rw [Nat.zero_add] at hrow
      have hcell := mapExcept_ok_getD (hamCell p (1 / y) i) (Marr p) (g.getD i [])
        hrow j hj 0 0
      rw [hamCell, if_pos hM] at hcell
      injection hcell with h2
      exact h2.symm
  · cases hc : p.fstarHamCache with
    | some g0 => simp [fstarHamAccess, hc]
    | none =>
      cases hge : fstarHamGridE p with
      | ok g0 => simp [fstarHamAccess, hc, hge]
      | error e => simp [fstarHamAccess, hc, hge]

/-- Witness for `fstar_ham_below_Mmin_zero`: for the concrete HAM
population the single grid mass (`10^0 = 1`) lies below `Mmin = 5`, the
constructed grid is `[[0]]`, and re-reading the cached grid is
idempotent. -/
theorem fstar_ham_below_Mmin_zero_witness :
    (([[(0 : ℚ)]] : List (List ℚ)).getD 0 []).getD 0 0 = 0 ∧
    fstarHamAccess (fstarHamAccess hamPop).2 = fstarHamAccess hamPop := by
  have hg : fstarHamGridE hamPop = .ok [[0]] := rfl
  exact fstar_ham_below_Mmin_zero hamPop [[0]] 0 0 hg (by decide) (by decide)
    (by norm_num [Marr, Mmin, hamPop, basePop])

end Ares
